import Mathlib

set_option maxHeartbeats 1000000
set_option maxRecDepth 16384

/-!
# A verification of `libmachine/provision/hypriot.go`

This file is a shallow embedding of the Hypriot provisioner
(`src/libmachine/provision/hypriot.go`) together with proofs about its
behaviour.  Remote commands are modelled through an abstract executor
(`Exec`): the Go code only ever observes whether a remote command failed, and
discards its output, so a command result is modelled as success or an error
string.  Collaborators that live outside the given source file
(`SetHostname`, `mcnutils.WaitFor`, `makeDockerOptionsDir`,
`setRemoteAuthOptions`, `ConfigureAuth`, `configureSwarm`, the Go template
engine) are modelled from the spec as outcome oracles, one per collaborator,
collected in the `World` structure.
-/

namespace Hypriot

/-- Result of one remote command issued through the SSH commander: the command
either succeeds (its textual output is discarded by every call site in
`hypriot.go`, which always binds it to `_`) or fails with an error. -/
inductive CmdResult where
  | ok : CmdResult
  | fail (e : String) : CmdResult
  deriving DecidableEq

/-- Modelled from the spec: the remote command executor collaborator
(`execute(commandString) -> (output, error)`, spec section 6).  Only
success/failure of each command is observable to the code in `hypriot.go`. -/
def Exec : Type := String → CmdResult

/-- The error (if any) of one remote command, as the Go call sites see it:
`if _, err := provisioner.SSHCommand(cmd); err != nil { return err }`. -/
def sshOutcome : CmdResult → Option String
  | .ok => none
  | .fail e => some e

/-- Modelled from the spec: the host's self-reported OS-release information;
only the `ID` field is read by `hypriot.go` (`provisioner.OsReleaseInfo.ID`). -/
structure OsReleaseInfo where
  ID : String
  deriving DecidableEq

/-- The fields of `auth.Options` read by `hypriot.go`: the three remote paths
for the TLS material substituted into the engine-config template. -/
structure AuthOptions where
  CaCertRemotePath : String
  ServerCertRemotePath : String
  ServerKeyRemotePath : String
  deriving DecidableEq

/-- The fields of `engine.Options` read by `hypriot.go`: the storage driver,
the label list, the insecure-registry list, the registry-mirror list and the
arbitrary-flag list. -/
structure EngineOptions where
  StorageDriver : String
  Labels : List String
  InsecureRegistry : List String
  RegistryMirror : List String
  ArbitraryFlags : List String
  deriving DecidableEq

/-- The fields of `swarm.Options` relevant to `hypriot.go`: the image
reference it may rewrite, plus (modelled from the spec, section 3) a
representative membership parameter that it must pass through unchanged. -/
structure SwarmOptions where
  Image : String
  Discovery : String
  deriving DecidableEq

/-- The driver collaborator, reduced to the two methods `hypriot.go` calls:
`DriverName()` and `GetMachineName()`. -/
structure Driver where
  driverName : String
  machineName : String
  deriving DecidableEq

/-- The `HypriotProvisioner` / embedded `GenericProvisioner` state: the fields
set by `NewHypriotProvisioner` plus the option fields the pipeline mutates. -/
structure HypriotProvisioner where
  DockerOptionsDir : String
  DaemonOptionsFile : String
  OsReleaseID : String
  Packages : List String
  OsReleaseInfo : OsReleaseInfo
  Driver : Driver
  SwarmOptions : SwarmOptions
  AuthOptions : AuthOptions
  EngineOptions : EngineOptions
  deriving DecidableEq

/-- `NewHypriotProvisioner`: the constructor registered for the "Hypriot"
variant.  The option fields and `OsReleaseInfo` start at their Go zero values
(`OsReleaseInfo` is populated later by the generic detection machinery). -/
def NewHypriotProvisioner (d : Driver) : HypriotProvisioner :=
  { DockerOptionsDir := "/etc/docker"
    DaemonOptionsFile := "/etc/default/docker"
    OsReleaseID := "raspbian"
    Packages := []
    OsReleaseInfo := { ID := "" }
    Driver := d
    SwarmOptions := { Image := "", Discovery := "" }
    AuthOptions := { CaCertRemotePath := "", ServerCertRemotePath := "", ServerKeyRemotePath := "" }
    EngineOptions := { StorageDriver := "", Labels := [], InsecureRegistry := [],
                       RegistryMirror := [], ArbitraryFlags := [] } }

/-- `CompatibleWithHost`: the Hypriot compatibility prober.  It runs
`cat /etc/hypriot_release`; any failure yields `false`, otherwise the result
is the comparison of the reported OS-release ID with the configured one. -/
def CompatibleWithHost (p : HypriotProvisioner) (exec : Exec) : Bool :=
  match exec "cat /etc/hypriot_release" with
  | .fail _ => false
  | .ok => p.OsReleaseInfo.ID == p.OsReleaseID

/-- Modelled from the spec: `pkgaction.PackageAction`, the enum
`{Install, Remove, Upgrade}` (spec section 3); `hypriot.go` switches over
exactly these three cases. -/
inductive PackageAction where
  | Install : PackageAction
  | Remove : PackageAction
  | Upgrade : PackageAction
  deriving DecidableEq

/-- Modelled from the spec: `serviceaction.ServiceAction`, "mapped to a
textual command verb" (spec section 3); only `Start` is used by
`hypriot.go`. -/
inductive ServiceAction where
  | Start : ServiceAction
  deriving DecidableEq

/-- The verb of a service action (`action.String()` in Go). -/
def serviceActionVerb : ServiceAction → String
  | .Start => "start"

/-- `Service`: issues `sudo service <name> <verb>` and returns its error,
if any. -/
def Service (exec : Exec) (name : String) (action : ServiceAction) : Option String :=
  sshOutcome (exec ("sudo service " ++ name ++ " " ++ serviceActionVerb action))

/-- The metadata-refresh command issued by `Package` before install/upgrade. -/
def aptGetUpdateCmd : String := "sudo -E apt-get update"

/-- The package-action command issued by `Package`
(`DEBIAN_FRONTEND=noninteractive sudo -E apt-get %s -y %s`). -/
def aptGetCmd (verb name : String) : String :=
  "DEBIAN_FRONTEND=noninteractive sudo -E apt-get " ++ verb ++ " -y " ++ name

/-- The package-name aliasing switch of `Package` (`switch name`): the
generic name `docker` maps to the distro package `docker-hypriot`; any other
name is unchanged. -/
def resolvePackageName (name : String) : String :=
  match name with
  | "docker" => "docker-hypriot"
  | _ => name

/-- `Package`: translates the action to an apt-get verb (`Install` and
`Upgrade` both map to `install`, `Remove` to `remove` and suppresses the
metadata refresh), aliases the package name `docker` to `docker-hypriot`,
then issues `sudo -E apt-get update` (when refreshing) followed by the
apt-get action command, stopping at the first failing command.  The result
is the ordered list of commands actually issued, paired with the error
returned to the caller (if any). -/
def Package (exec : Exec) (name : String) (action : PackageAction) :
    List String × Option String :=
  let packageAction : String :=
    match action with
    | .Install => "install"
    | .Remove => "remove"
    | .Upgrade => "install"
  let updateMetadata : Bool :=
    match action with
    | .Remove => false
    | _ => true
  let name : String := resolvePackageName name
  if updateMetadata then
    match exec aptGetUpdateCmd with
    | .fail e => ([aptGetUpdateCmd], some e)
    | .ok =>
      match exec (aptGetCmd packageAction name) with
      | .fail e => ([aptGetUpdateCmd, aptGetCmd packageAction name], some e)
      | .ok => ([aptGetUpdateCmd, aptGetCmd packageAction name], none)
  else
    match exec (aptGetCmd packageAction name) with
    | .fail e => ([aptGetCmd packageAction name], some e)
    | .ok => ([aptGetCmd packageAction name], none)

/-- `dockerDaemonInstalled`: runs `type docker`; failure means "not
installed" (the error is deliberately collapsed to `false`). -/
def dockerDaemonInstalled (exec : Exec) : Bool :=
  match exec "type docker" with
  | .fail _ => false
  | .ok => true

/-- `dockerDaemonRunning`: runs `sudo service docker status`; failure means
"not running" (the error is deliberately collapsed to `false`). -/
def dockerDaemonRunning (exec : Exec) : Bool :=
  match exec "sudo service docker status" with
  | .fail _ => false
  | .ok => true

/-- `dockerDaemonResponding`: runs `sudo docker version`; failure means "not
yet responding".  `mcnutils.WaitFor` polls this probe. -/
def dockerDaemonResponding (exec : Exec) : Bool :=
  match exec "sudo docker version" with
  | .fail _ => false
  | .ok => true

/-- `setHostnameHypriot`: the best-effort sed rewrite of
`/boot/occidentalis.txt`, returning the command's error, if any. -/
def setHostnameHypriot (exec : Exec) (hostname : String) : Option String :=
  sshOutcome (exec
    ("if [ -f /boot/occidentalis.txt ]; then sudo sed -i 's/^hostname.*=.*/hostname="
      ++ hostname ++ "/g' /boot/occidentalis.txt; fi"))

/-- `setHypriotAptRepo`: the guarded key-add / repo-source command, returning
its error, if any. -/
def setHypriotAptRepo (exec : Exec) : Option String :=
  sshOutcome (exec
    "if [ ! -f /etc/apt/sources.list.d/hypriot.list ] || grep -q repository.hypriot.com /etc/apt/sources.list.d/hypriot.list; then (curl https://packagecloud.io/gpg.key | sudo apt-key add -); echo 'deb https://packagecloud.io/Hypriot/Schatzkiste/debian/ wheezy main' | sudo tee /etc/apt/sources.list.d/hypriot.list; fi")

/-- `EngineConfigContext`: the data handed to the engine-config template. -/
structure EngineConfigContext where
  DockerPort : Int
  AuthOptions : AuthOptions
  EngineOptions : EngineOptions
  deriving DecidableEq

/-- One `--label <l> ` segment of the rendered engine config
(`{{ range .EngineOptions.Labels }}--label {{.}} {{ end }}`). -/
def labelFlag (l : String) : String := "--label " ++ l ++ " "

/-- One `--insecure-registry <r> ` segment of the rendered engine config. -/
def insecureRegistryFlag (r : String) : String := "--insecure-registry " ++ r ++ " "

/-- One `--registry-mirror <m> ` segment of the rendered engine config. -/
def registryMirrorFlag (m : String) : String := "--registry-mirror " ++ m ++ " "

/-- One `--<flag> ` segment of the rendered engine config
(`{{ range .EngineOptions.ArbitraryFlags }}--{{.}} {{ end }}`). -/
def arbitraryFlag (f : String) : String := "--" ++ f ++ " "

/-- The fixed head of the rendered engine config, up to and including the
trailing space after the TLS key path: bind addresses (TCP on the supplied
port plus the unix socket), the storage driver and the three TLS material
paths, exactly as laid out in `engineConfigTmpl`. -/
def engineConfigHeader (dockerPort : Int) (a : AuthOptions) (storageDriver : String) : String :=
  "\nDOCKER_OPTS='-H tcp://0.0.0.0:" ++ toString dockerPort
    ++ " -H unix:///var/run/docker.sock --storage-driver " ++ storageDriver
    ++ " --tlsverify --tlscacert " ++ a.CaCertRemotePath
    ++ " --tlscert " ++ a.ServerCertRemotePath
    ++ " --tlskey " ++ a.ServerKeyRemotePath ++ " "

/-- The output of one `{{ range xs }}...{{ end }}` block of the template:
one segment `f x` per element `x` of `xs`, emitted in list order. -/
def rangeBlock (f : α → String) : List α → String
  | [] => ""
  | x :: xs => f x ++ rangeBlock f xs

/-- The text produced by executing the fixed template `engineConfigTmpl` of
`GenerateDockerOptions` on a context: the fixed header followed by one
segment per label, insecure registry, registry mirror and arbitrary flag, in
list order, closed by the quote and newline of the template literal. -/
def renderEngineConfig (ctx : EngineConfigContext) : String :=
  engineConfigHeader ctx.DockerPort ctx.AuthOptions ctx.EngineOptions.StorageDriver
    ++ rangeBlock labelFlag ctx.EngineOptions.Labels
    ++ rangeBlock insecureRegistryFlag ctx.EngineOptions.InsecureRegistry
    ++ rangeBlock registryMirrorFlag ctx.EngineOptions.RegistryMirror
    ++ rangeBlock arbitraryFlag ctx.EngineOptions.ArbitraryFlags
    ++ "'\n"

/-- `DockerOptions`: the rendered daemon-options artifact (file content and
file path). -/
structure DockerOptions where
  EngineOptions : String
  EngineOptionsPath : String
  deriving DecidableEq

/-- `GenerateDockerOptions`: appends the label `provider=<driver name>` to
the provisioner's stored engine-option labels (a mutation of the
provisioner, reflected in the returned state), then renders the fixed
engine-config template over the stored auth and engine options and the given
port.  The fixed template of `hypriot.go` parses successfully and its
execution over this context always succeeds, so the Go error result is
always nil here; the error-handling skeleton (with the template engine
abstracted) is modelled separately by `generateDockerOptionsWithEngine`. -/
def GenerateDockerOptions (p : HypriotProvisioner) (dockerPort : Int) :
    HypriotProvisioner × DockerOptions :=
  let driverNameLabel := "provider=" ++ p.Driver.driverName
  let p := { p with EngineOptions :=
    { p.EngineOptions with Labels := p.EngineOptions.Labels ++ [driverNameLabel] } }
  (p, { EngineOptions := renderEngineConfig
          { DockerPort := dockerPort, AuthOptions := p.AuthOptions,
            EngineOptions := p.EngineOptions }
        EngineOptionsPath := p.DaemonOptionsFile })

/-- Modelled from the spec: the Go template engine as seen through its
interface (`Parse` may fail; `Execute` writes output into the buffer and
additionally returns an error).  `hypriot.go` consumes exactly these three
observables. -/
structure TemplateEngine where
  parseResult : Option String
  executeOutput : String
  executeError : Option String
  deriving DecidableEq

/-- The error-handling skeleton of `GenerateDockerOptions` (lines 233-249 of
`hypriot.go`) with the template engine abstracted: a `Parse` error is
returned to the caller, but the error result of `t.Execute` is discarded —
the buffer content accumulated by `Execute` is returned with a nil error
regardless of `executeError`. -/
def generateDockerOptionsWithEngine (p : HypriotProvisioner) (eng : TemplateEngine) :
    Except String DockerOptions :=
  match eng.parseResult with
  | some e => .error e
  | none =>
    .ok { EngineOptions := eng.executeOutput, EngineOptionsPath := p.DaemonOptionsFile }

/-- The pipeline steps of `Provision`, at the granularity of the operations
that can fail (the two read-only probes `dockerDaemonInstalled` and
`dockerDaemonRunning` collapse failures to `false` and are reflected in
which steps appear, not as steps of their own; the fixed two-second sleep has
no observable outcome). -/
inductive Step where
  | setHostname : Step
  | setHostnameHypriot : Step
  | setHypriotAptRepo : Step
  | installPackage (name : String) : Step
  | startDocker : Step
  | waitForDocker : Step
  | makeDockerOptionsDir : Step
  | configureAuth : Step
  | configureSwarm : Step
  deriving DecidableEq

/-- Modelled from the spec: the outcome oracles for the collaborators invoked
by `Provision` that are defined outside `hypriot.go` — the generic
`SetHostname` (spec 4.4.1), the readiness poller `mcnutils.WaitFor`
(spec 4.5), `makeDockerOptionsDir` (spec 4.4.8), `setRemoteAuthOptions`
(spec 4.4.9: the rewritten remote-path auth options it returns),
`ConfigureAuth` (spec 4.4.10) and `configureSwarm` (spec 4.4.12) — together
with the remote executor used for the commands `hypriot.go` itself issues.
`none` is a successful outcome, `some e` the error `e`. -/
structure World where
  exec : Exec
  setHostname : Option String
  waitForDocker : Option String
  makeDockerOptionsDir : Option String
  remoteAuthOptions : AuthOptions
  configureAuth : Option String
  configureSwarm : Option String

/-- The observable result of one `Provision` run: the steps executed in
order, the error returned to the caller (if any), the provisioner state when
the run ended, and the arguments handed to the `configureSwarm` collaborator
(when the run reached it). -/
structure ProvisionRun where
  trace : List Step
  result : Option String
  final : HypriotProvisioner
  swarmCall : Option (SwarmOptions × AuthOptions)

/-- Sequencing of one fallible pipeline step, mirroring the Go idiom
`if err := step(); err != nil { return err }`: on failure the step's error is
returned and nothing further runs; on success the rest of the pipeline
runs and the step is prepended to its trace. -/
def seqStep (s : Step) (outcome : Option String) (p : HypriotProvisioner)
    (k : Unit → ProvisionRun) : ProvisionRun :=
  match outcome with
  | some e => { trace := [s], result := some e, final := p, swarmCall := none }
  | none =>
    let r := k ()
    { trace := s :: r.trace, result := r.result, final := r.final, swarmCall := r.swarmCall }

/-- The final step of `Provision`: the generic default image `swarm:latest`
is replaced by `hypriot/rpi-swarm:latest` (any other image is kept), then the
`configureSwarm` collaborator is invoked with the resolved swarm options and
the provisioner's (rewritten) auth options; its error, if any, is returned. -/
def provisionSwarmStep (w : World) (p : HypriotProvisioner) (swarmOptions : SwarmOptions) :
    ProvisionRun :=
  let swarmOptions :=
    if swarmOptions.Image == "swarm:latest" then
      { swarmOptions with Image := "hypriot/rpi-swarm:latest" }
    else swarmOptions
  { trace := [.configureSwarm], result := w.configureSwarm, final := p,
    swarmCall := some (swarmOptions, p.AuthOptions) }

/-- The auth phase of `Provision`: the stored auth options are replaced by
the value returned by `setRemoteAuthOptions`, then `ConfigureAuth` runs
(the two-second `time.Sleep` that follows has no observable outcome),
then the swarm step. -/
def provisionAuthPhase (w : World) (p : HypriotProvisioner) (swarmOptions : SwarmOptions) :
    ProvisionRun :=
  let p := { p with AuthOptions := w.remoteAuthOptions }
  seqStep .configureAuth w.configureAuth p fun _ =>
  provisionSwarmStep w p swarmOptions

/-- The tail of `Provision` after the conditional service start: readiness
wait, options-directory creation, then the auth phase. -/
def provisionTail (w : World) (p : HypriotProvisioner) (swarmOptions : SwarmOptions) :
    ProvisionRun :=
  seqStep .waitForDocker w.waitForDocker p fun _ =>
  seqStep .makeDockerOptionsDir w.makeDockerOptionsDir p fun _ =>
  provisionAuthPhase w p swarmOptions

/-- The conditional service start of `Provision`: when the running probe
reports the daemon as not running, `Service("docker", Start)` is issued
first; then the tail. -/
def provisionStartPhase (w : World) (p : HypriotProvisioner) (swarmOptions : SwarmOptions) :
    ProvisionRun :=
  if dockerDaemonRunning w.exec then provisionTail w p swarmOptions
  else
    seqStep .startDocker (Service w.exec "docker" ServiceAction.Start) p fun _ =>
    provisionTail w p swarmOptions

/-- The package-install loop of `Provision`
(`for _, pkg := range provisioner.Packages`): installs each pending package
in list order, stopping at the first failure; on full success the rest of the
pipeline runs. -/
def installPackagesLoop (w : World) (p : HypriotProvisioner) :
    List String → (Unit → ProvisionRun) → ProvisionRun
  | [], k => k ()
  | pkg :: pkgs, k =>
    seqStep (.installPackage pkg) (Package w.exec pkg PackageAction.Install).2 p fun _ =>
    installPackagesLoop w p pkgs k

/-- `Provision`: stores the three option structs on the provisioner,
defaults an empty storage driver to `overlay`, then runs the pipeline
strictly in order — generic hostname, Hypriot hostname-file patch,
`apt-transport-https` install, Hypriot APT repo setup, conditional queuing of
the `docker` package behind the installed probe, the package-install loop,
conditional service start behind the running probe, readiness wait,
options-directory creation, auth-path rewrite plus auth configuration, and
swarm configuration — returning the first failing step's error. -/
def Provision (w : World) (p0 : HypriotProvisioner) (swarmOptions : SwarmOptions)
    (authOptions : AuthOptions) (engineOptions : EngineOptions) : ProvisionRun :=
  let p := { p0 with SwarmOptions := swarmOptions, AuthOptions := authOptions,
                     EngineOptions := engineOptions }
  let p := { p with EngineOptions :=
    if p.EngineOptions.StorageDriver == "" then
      { p.EngineOptions with StorageDriver := "overlay" }
    else p.EngineOptions }
  seqStep .setHostname w.setHostname p fun _ =>
  seqStep .setHostnameHypriot (setHostnameHypriot w.exec p.Driver.machineName) p fun _ =>
  seqStep (.installPackage "apt-transport-https")
    (Package w.exec "apt-transport-https" PackageAction.Install).2 p fun _ =>
  seqStep .setHypriotAptRepo (setHypriotAptRepo w.exec) p fun _ =>
  let p := { p with Packages :=
    if dockerDaemonInstalled w.exec then p.Packages else p.Packages ++ ["docker"] }
  installPackagesLoop w p p.Packages fun _ =>
  provisionStartPhase w p swarmOptions

/-- The outcome each pipeline step has in a world `w` (deterministic, since
the executor and the collaborator oracles are fixed functions of `w`). -/
def stepOutcome (w : World) (machineName : String) : Step → Option String
  | .setHostname => w.setHostname
  | .setHostnameHypriot => setHostnameHypriot w.exec machineName
  | .setHypriotAptRepo => setHypriotAptRepo w.exec
  | .installPackage pkg => (Package w.exec pkg PackageAction.Install).2
  | .startDocker => Service w.exec "docker" ServiceAction.Start
  | .waitForDocker => w.waitForDocker
  | .makeDockerOptionsDir => w.makeDockerOptionsDir
  | .configureAuth => w.configureAuth
  | .configureSwarm => w.configureSwarm

/-- The fixed tail of the pipeline after the conditional service start. -/
def tailSteps : List Step :=
  [.waitForDocker, .makeDockerOptionsDir, .configureAuth, .configureSwarm]

/-- The packages the install loop will process: the stored initial list,
with `docker` queued at the end when the installed probe reports it absent. -/
def pendingPackages (w : World) (p : HypriotProvisioner) : List String :=
  if dockerDaemonInstalled w.exec then p.Packages else p.Packages ++ ["docker"]

/-- The full ordered step sequence of a `Provision` run in world `w` (the
sequence executed when no step fails), with the conditional steps resolved by
the two probes. -/
def fullSteps (w : World) (p : HypriotProvisioner) : List Step :=
  Step.setHostname :: Step.setHostnameHypriot :: Step.installPackage "apt-transport-https" ::
    Step.setHypriotAptRepo ::
    ((pendingPackages w p).map Step.installPackage ++
      ((if dockerDaemonRunning w.exec then [] else [Step.startDocker]) ++ tailSteps))

/-- A run `r` is a correct first-failure execution of the step sequence
`steps` under the per-step outcomes `o`: the executed trace is an initial
segment of `steps`; on success the whole of `steps` ran; on failure the
returned error is exactly the outcome of the last executed step and every
step executed before it succeeded (in particular no step after the failing
one was executed). -/
def GoodRun (o : Step → Option String) (steps : List Step) (r : ProvisionRun) : Prop :=
  (∃ rest, steps = r.trace ++ rest) ∧
  (r.result = none → r.trace = steps) ∧
  (∀ e, r.result = some e →
    ∃ s, r.trace.getLast? = some s ∧ o s = some e ∧
      ∀ s' ∈ r.trace.dropLast, o s' = none)

theorem seqStep_goodRun {o : Step → Option String} {s : Step} (p : HypriotProvisioner)
    {k : Unit → ProvisionRun} {steps : List Step}
    (h : o s = none → GoodRun o steps (k ())) :
    GoodRun o (s :: steps) (seqStep s (o s) p k) := by
  unfold GoodRun
  cases ho : o s with
  | some e =>
    simp only [seqStep]
    refine ⟨⟨steps, by simp⟩, by simp, ?_⟩
    intro e' he'
    simp only [Option.some.injEq] at he'
    exact ⟨s, by simp, by rw [ho, he'], by simp⟩
  | none =>
    obtain ⟨⟨rest, hrest⟩, hnone, hsome⟩ := h ho
    simp only [seqStep]
    refine ⟨⟨rest, by simp [hrest]⟩, ?_, ?_⟩
    · intro h2
      simp only [List.cons.injEq, true_and]
      exact hnone h2
    · intro e he
      obtain ⟨s', hl, hos', hall⟩ := hsome e he
      cases htr : (k ()).trace with
      | nil => rw [htr] at hl; simp at hl
      | cons b l =>
        rw [htr] at hl
        refine ⟨s', ?_, hos', ?_⟩
        · simpa [htr] using hl
        · intro x hx
          rw [htr] at hall
          simp only [htr, List.dropLast_cons₂, List.mem_cons] at hx ⊢
          rcases hx with hx | hx
          · rw [hx]; exact ho
          · exact hall x (by simpa using hx)

theorem installPackagesLoop_goodRun (w : World) (mn : String) (p : HypriotProvisioner)
    (k : Unit → ProvisionRun) (steps : List Step)
    (hk : GoodRun (stepOutcome w mn) steps (k ())) :
    ∀ pkgs : List String,
      GoodRun (stepOutcome w mn) (pkgs.map Step.installPackage ++ steps)
        (installPackagesLoop w p pkgs k) := by
  intro pkgs
  induction pkgs with
  | nil => exact hk
  | cons pkg pkgs ih =>
    exact seqStep_goodRun p (fun _ => ih)

theorem provisionSwarmStep_goodRun (w : World) (mn : String) (p : HypriotProvisioner)
    (so : SwarmOptions) :
    GoodRun (stepOutcome w mn) [Step.configureSwarm] (provisionSwarmStep w p so) := by
  unfold GoodRun provisionSwarmStep
  refine ⟨⟨[], by simp⟩, fun _ => by simp, ?_⟩
  intro e he
  simp only at he
  exact ⟨.configureSwarm, by simp, he, by simp⟩

theorem provisionAuthPhase_goodRun (w : World) (mn : String) (p : HypriotProvisioner)
    (so : SwarmOptions) :
    GoodRun (stepOutcome w mn) [Step.configureAuth, Step.configureSwarm]
      (provisionAuthPhase w p so) :=
  seqStep_goodRun { p with AuthOptions := w.remoteAuthOptions }
    (fun _ => provisionSwarmStep_goodRun w mn { p with AuthOptions := w.remoteAuthOptions } so)

theorem provisionTail_goodRun (w : World) (mn : String) (p : HypriotProvisioner)
    (so : SwarmOptions) :
    GoodRun (stepOutcome w mn) tailSteps (provisionTail w p so) :=
  seqStep_goodRun p (fun _ =>
    seqStep_goodRun p (fun _ => provisionAuthPhase_goodRun w mn p so))

theorem provisionStartPhase_goodRun (w : World) (mn : String) (p : HypriotProvisioner)
    (so : SwarmOptions) :
    GoodRun (stepOutcome w mn)
      ((if dockerDaemonRunning w.exec then [] else [Step.startDocker]) ++ tailSteps)
      (provisionStartPhase w p so) := by
  cases hrun : dockerDaemonRunning w.exec with
  | true =>
    simp only [provisionStartPhase, hrun, if_true, List.nil_append]
    exact provisionTail_goodRun w mn p so
  | false =>
    simp only [provisionStartPhase, hrun, if_false, List.cons_append, List.nil_append]
    exact seqStep_goodRun p (fun _ => provisionTail_goodRun w mn p so)

/-- C2: for every world of step outcomes, `Provision` executes its pipeline
steps strictly in the fixed order given by `fullSteps` (generic hostname,
Hypriot hostname-file patch, `apt-transport-https` install, APT repo setup,
the package installs — including the conditionally queued `docker` package —
in list order, the conditional service start, readiness wait, options
directory, auth, swarm): its trace is always an initial segment of that
order, it is the whole of it exactly on success, and on failure the error
returned to the caller is the outcome of the last executed step, every
earlier step having succeeded and no later step having been executed. -/
theorem provision_pipeline_first_failure (w : World) (p0 : HypriotProvisioner)
    (so : SwarmOptions) (ao : AuthOptions) (eo : EngineOptions) :
    GoodRun (stepOutcome w p0.Driver.machineName) (fullSteps w p0)
      (Provision w p0 so ao eo) :=
  seqStep_goodRun _ (fun _ =>
    seqStep_goodRun _ (fun _ =>
      seqStep_goodRun _ (fun _ =>
        seqStep_goodRun _ (fun _ =>
          installPackagesLoop_goodRun w _ _ _ _
            (provisionStartPhase_goodRun w _ _ so) _))))

theorem aptGetCmd_ne_updateCmd (verb name : String) : aptGetCmd verb name ≠ aptGetUpdateCmd := by
  intro h
  have hl := congrArg String.length h
  simp only [aptGetCmd, aptGetUpdateCmd, String.length_append] at hl
  have h1 : ("DEBIAN_FRONTEND=noninteractive sudo -E apt-get " : String).length = 47 := by decide
  have h2 : (" -y " : String).length = 4 := by decide
  have h3 : ("sudo -E apt-get update" : String).length = 22 := by decide
  rw [h1, h2, h3] at hl
  omega

theorem package_remove_trace (exec : Exec) (name : String) :
    (Package exec name PackageAction.Remove).1 =
      [aptGetCmd "remove" (resolvePackageName name)] := by
  unfold Package
  cases h : exec (aptGetCmd "remove" (resolvePackageName name)) <;> simp [h]

theorem package_install_trace (exec : Exec) (name : String) :
    (Package exec name PackageAction.Install).1 =
      (match exec aptGetUpdateCmd with
       | .fail _ => [aptGetUpdateCmd]
       | .ok => [aptGetUpdateCmd, aptGetCmd "install" (resolvePackageName name)]) := by
  unfold Package
  cases h : exec aptGetUpdateCmd with
  | fail e => simp [h]
  | ok => cases h2 : exec (aptGetCmd "install" (resolvePackageName name)) <;> simp [h, h2]

/-- C3: `CompatibleWithHost` on the provisioner built by
`NewHypriotProvisioner` (whose configured identifier is `raspbian`), with the
host's reported OS-release information filled in, returns `true` exactly when
the marker probe `cat /etc/hypriot_release` succeeds and the reported
OS-release ID equals `raspbian`; in particular any failure of the remote
marker command yields `false` rather than an error. -/
theorem compatibleWithHost_iff (d : Driver) (info : OsReleaseInfo) (exec : Exec) :
    CompatibleWithHost { NewHypriotProvisioner d with OsReleaseInfo := info } exec = true ↔
      (exec "cat /etc/hypriot_release" = CmdResult.ok ∧ info.ID = "raspbian") := by
  unfold CompatibleWithHost
  cases h : exec "cat /etc/hypriot_release" with
  | ok => simp [NewHypriotProvisioner]
  | fail e => simp

/-- C4: `Package` never issues the metadata-refresh command
`sudo -E apt-get update` for `Remove` (its only command is the apt-get remove
itself), while for `Install` and for `Upgrade` it always issues the
metadata-refresh command, and issues it strictly before the apt-get action
command (which runs only when the refresh succeeded). -/
theorem package_metadata_refresh (exec : Exec) (name : String) :
    aptGetUpdateCmd ∉ (Package exec name PackageAction.Remove).1 ∧
    aptGetUpdateCmd ∈ (Package exec name PackageAction.Install).1 ∧
    aptGetUpdateCmd ∈ (Package exec name PackageAction.Upgrade).1 ∧
    (Package exec name PackageAction.Remove).1 =
      [aptGetCmd "remove" (resolvePackageName name)] ∧
    (Package exec name PackageAction.Install).1 =
      (match exec aptGetUpdateCmd with
       | .fail _ => [aptGetUpdateCmd]
       | .ok => [aptGetUpdateCmd, aptGetCmd "install" (resolvePackageName name)]) ∧
    (Package exec name PackageAction.Upgrade).1 =
      (match exec aptGetUpdateCmd with
       | .fail _ => [aptGetUpdateCmd]
       | .ok => [aptGetUpdateCmd, aptGetCmd "install" (resolvePackageName name)]) := by
  have hrem := package_remove_trace exec name
  have hins := package_install_trace exec name
  have hupg : (Package exec name PackageAction.Upgrade).1 =
      (match exec aptGetUpdateCmd with
       | .fail _ => [aptGetUpdateCmd]
       | .ok => [aptGetUpdateCmd, aptGetCmd "install" (resolvePackageName name)]) := hins
  refine ⟨?_, ?_, ?_, hrem, hins, hupg⟩
  · rw [hrem]
    simp only [List.mem_singleton]
    exact fun h => aptGetCmd_ne_updateCmd _ _ h.symm
  · rw [hins]; cases h : exec aptGetUpdateCmd <;> simp
  · rw [hupg]; cases h : exec aptGetUpdateCmd <;> simp

/-- C5: every apt-get action command `Package` issues for the package name
`docker` names the aliased package `docker-hypriot`; the command naming the
generic package `docker` (with either apt-get verb) is never issued. -/
theorem package_docker_aliased (exec : Exec) (a : PackageAction) :
    ((Package exec "docker" a).1 =
      (match a with
       | .Remove => [aptGetCmd "remove" "docker-hypriot"]
       | _ =>
         match exec aptGetUpdateCmd with
         | .fail _ => [aptGetUpdateCmd]
         | .ok => [aptGetUpdateCmd, aptGetCmd "install" "docker-hypriot"])) ∧
    aptGetCmd "install" "docker" ∉ (Package exec "docker" a).1 ∧
    aptGetCmd "remove" "docker" ∉ (Package exec "docker" a).1 := by
  have hres : resolvePackageName "docker" = "docker-hypriot" := rfl
  cases a with
  | Remove =>
    have h := package_remove_trace exec "docker"
    rw [hres] at h
    exact ⟨h, by rw [h]; decide, by rw [h]; decide⟩
  | Install =>
    have h := package_install_trace exec "docker"
    rw [hres] at h
    have n1 : aptGetCmd "install" "docker" ∉ ([aptGetUpdateCmd] : List String) := by decide
    have n2 : aptGetCmd "install" "docker" ∉
        [aptGetUpdateCmd, aptGetCmd "install" "docker-hypriot"] := by decide
    have n3 : aptGetCmd "remove" "docker" ∉ ([aptGetUpdateCmd] : List String) := by decide
    have n4 : aptGetCmd "remove" "docker" ∉
        [aptGetUpdateCmd, aptGetCmd "install" "docker-hypriot"] := by decide
    refine ⟨h, ?_, ?_⟩ <;> rw [h] <;> cases exec aptGetUpdateCmd <;>
      first | exact n1 | exact n2 | exact n3 | exact n4
  | Upgrade =>
    have h : (Package exec "docker" PackageAction.Upgrade).1 =
        (match exec aptGetUpdateCmd with
         | .fail _ => [aptGetUpdateCmd]
         | .ok => [aptGetUpdateCmd, aptGetCmd "install" "docker-hypriot"]) := by
      have h := package_install_trace exec "docker"
      rw [hres] at h
      exact h
    have n1 : aptGetCmd "install" "docker" ∉ ([aptGetUpdateCmd] : List String) := by decide
    have n2 : aptGetCmd "install" "docker" ∉
        [aptGetUpdateCmd, aptGetCmd "install" "docker-hypriot"] := by decide
    have n3 : aptGetCmd "remove" "docker" ∉ ([aptGetUpdateCmd] : List String) := by decide
    have n4 : aptGetCmd "remove" "docker" ∉
        [aptGetUpdateCmd, aptGetCmd "install" "docker-hypriot"] := by decide
    refine ⟨h, ?_, ?_⟩ <;> rw [h] <;> cases exec aptGetUpdateCmd <;>
      first | exact n1 | exact n2 | exact n3 | exact n4

/-- C10: `Package` with the `Upgrade` action is observationally identical to
`Package` with the `Install` action, for every executor and package name:
both map to the apt-get verb `install`, both refresh metadata first, and the
issued command sequences and returned errors coincide exactly. -/
theorem package_upgrade_refines_install (exec : Exec) (name : String) :
    Package exec name PackageAction.Upgrade = Package exec name PackageAction.Install := rfl

theorem wrap_injective (c d : String) : Function.Injective (fun s => c ++ s ++ d) := by
  intro x y h
  have hd := congrArg String.data h
  simp only [String.data_append] at hd
  exact String.ext (List.append_cancel_left (List.append_cancel_right hd))

theorem labelFlag_injective : Function.Injective labelFlag :=
  wrap_injective "--label " " "

theorem insecureRegistryFlag_injective : Function.Injective insecureRegistryFlag :=
  wrap_injective "--insecure-registry " " "

theorem registryMirrorFlag_injective : Function.Injective registryMirrorFlag :=
  wrap_injective "--registry-mirror " " "

theorem arbitraryFlag_injective : Function.Injective arbitraryFlag :=
  wrap_injective "--" " "

theorem rangeBlock_append (f : α → String) (xs ys : List α) :
    rangeBlock f (xs ++ ys) = rangeBlock f xs ++ rangeBlock f ys := by
  induction xs with
  | nil => simp [rangeBlock, String.empty_append]
  | cons x xs ih => simp [rangeBlock, ih, String.append_assoc]

theorem rangeBlock_singleton (f : α → String) (y : α) : rangeBlock f [y] = f y := by
  simp [rangeBlock, String.append_empty]

theorem labelFlag_length (l : String) : (labelFlag l).length = 8 + l.length + 1 := by
  simp only [labelFlag, String.length_append]
  have h8 : ("--label " : String).length = 8 := by decide
  have h1 : (" " : String).length = 1 := by decide
  rw [h8, h1]

/-- C7: the engine-options text rendered by `GenerateDockerOptions`
decomposes as the fixed header — which embeds the supplied port and the
three TLS material paths — followed by exactly one `--label` segment per
label (the stored labels, in order, then the injected `provider=` label),
one `--insecure-registry` segment per insecure-registry entry, one
`--registry-mirror` segment per mirror, and one `--<flag>` segment per
arbitrary flag, each group in its input list's order; and mapping a list to
its flag segments preserves multiplicities exactly (one segment per entry). -/
theorem generateDockerOptions_tokens (p : HypriotProvisioner) (port : Int) :
    ((GenerateDockerOptions p port).2.EngineOptions =
      engineConfigHeader port p.AuthOptions p.EngineOptions.StorageDriver
        ++ rangeBlock labelFlag (p.EngineOptions.Labels ++ ["provider=" ++ p.Driver.driverName])
        ++ rangeBlock insecureRegistryFlag p.EngineOptions.InsecureRegistry
        ++ rangeBlock registryMirrorFlag p.EngineOptions.RegistryMirror
        ++ rangeBlock arbitraryFlag p.EngineOptions.ArbitraryFlags
        ++ "'\n") ∧
    (∀ l : String,
      ((p.EngineOptions.Labels ++ ["provider=" ++ p.Driver.driverName]).map labelFlag).count
          (labelFlag l) =
        (p.EngineOptions.Labels ++ ["provider=" ++ p.Driver.driverName]).count l) ∧
    (∀ r : String,
      (p.EngineOptions.InsecureRegistry.map insecureRegistryFlag).count
          (insecureRegistryFlag r) =
        p.EngineOptions.InsecureRegistry.count r) ∧
    (∀ m : String,
      (p.EngineOptions.RegistryMirror.map registryMirrorFlag).count (registryMirrorFlag m) =
        p.EngineOptions.RegistryMirror.count m) ∧
    (∀ f : String,
      (p.EngineOptions.ArbitraryFlags.map arbitraryFlag).count (arbitraryFlag f) =
        p.EngineOptions.ArbitraryFlags.count f) ∧
    (∃ u v, engineConfigHeader port p.AuthOptions p.EngineOptions.StorageDriver =
      u ++ toString port ++ v) ∧
    (∃ u v, engineConfigHeader port p.AuthOptions p.EngineOptions.StorageDriver =
      u ++ p.AuthOptions.CaCertRemotePath ++ v) ∧
    (∃ u v, engineConfigHeader port p.AuthOptions p.EngineOptions.StorageDriver =
      u ++ p.AuthOptions.ServerCertRemotePath ++ v) ∧
    (∃ u v, engineConfigHeader port p.AuthOptions p.EngineOptions.StorageDriver =
      u ++ p.AuthOptions.ServerKeyRemotePath ++ v) := by
  refine ⟨rfl, ?_, ?_, ?_, ?_, ?_, ?_, ?_, ?_⟩
  · exact fun l => List.count_map_of_injective _ _ labelFlag_injective l
  · exact fun r => List.count_map_of_injective _ _ insecureRegistryFlag_injective r
  · exact fun m => List.count_map_of_injective _ _ registryMirrorFlag_injective m
  · exact fun f => List.count_map_of_injective _ _ arbitraryFlag_injective f
  · exact ⟨"\nDOCKER_OPTS='-H tcp://0.0.0.0:",
      " -H unix:///var/run/docker.sock --storage-driver " ++ p.EngineOptions.StorageDriver
        ++ " --tlsverify --tlscacert " ++ p.AuthOptions.CaCertRemotePath
        ++ " --tlscert " ++ p.AuthOptions.ServerCertRemotePath
        ++ " --tlskey " ++ p.AuthOptions.ServerKeyRemotePath ++ " ",
      by simp [engineConfigHeader, String.append_assoc]⟩
  · exact ⟨"\nDOCKER_OPTS='-H tcp://0.0.0.0:" ++ toString port
        ++ " -H unix:///var/run/docker.sock --storage-driver " ++ p.EngineOptions.StorageDriver
        ++ " --tlsverify --tlscacert ",
      " --tlscert " ++ p.AuthOptions.ServerCertRemotePath
        ++ " --tlskey " ++ p.AuthOptions.ServerKeyRemotePath ++ " ",
      by simp [engineConfigHeader, String.append_assoc]⟩
  · exact ⟨"\nDOCKER_OPTS='-H tcp://0.0.0.0:" ++ toString port
        ++ " -H unix:///var/run/docker.sock --storage-driver " ++ p.EngineOptions.StorageDriver
        ++ " --tlsverify --tlscacert " ++ p.AuthOptions.CaCertRemotePath
        ++ " --tlscert ",
      " --tlskey " ++ p.AuthOptions.ServerKeyRemotePath ++ " ",
      by simp [engineConfigHeader, String.append_assoc]⟩
  · exact ⟨"\nDOCKER_OPTS='-H tcp://0.0.0.0:" ++ toString port
        ++ " -H unix:///var/run/docker.sock --storage-driver " ++ p.EngineOptions.StorageDriver
        ++ " --tlsverify --tlscacert " ++ p.AuthOptions.CaCertRemotePath
        ++ " --tlscert " ++ p.AuthOptions.ServerCertRemotePath
        ++ " --tlskey ",
      " ",
      by simp [engineConfigHeader, String.append_assoc]⟩

/-- C1 (amended): a call to `GenerateDockerOptions` is a deterministic
function of the provisioner value and port, but it also appends the
`provider=` label to the provisioner's stored engine options; consequently
two successive calls on the same provisioner (the second receiving the state
returned by the first) do not produce byte-identical content: the second
call's rendered text contains exactly one additional `--label provider=...`
segment inserted after the first call's label segments, and is never equal
to the first call's text. -/
theorem generateDockerOptions_second_call_drift (p : HypriotProvisioner) (port : Int) :
    ∃ pre post,
      (GenerateDockerOptions p port).2.EngineOptions = pre ++ post ∧
      (GenerateDockerOptions (GenerateDockerOptions p port).1 port).2.EngineOptions =
        pre ++ labelFlag ("provider=" ++ p.Driver.driverName) ++ post ∧
      (GenerateDockerOptions (GenerateDockerOptions p port).1 port).2.EngineOptions ≠
        (GenerateDockerOptions p port).2.EngineOptions := by
  have h1 : (GenerateDockerOptions p port).2.EngineOptions =
      engineConfigHeader port p.AuthOptions p.EngineOptions.StorageDriver
        ++ rangeBlock labelFlag (p.EngineOptions.Labels ++ ["provider=" ++ p.Driver.driverName])
        ++ rangeBlock insecureRegistryFlag p.EngineOptions.InsecureRegistry
        ++ rangeBlock registryMirrorFlag p.EngineOptions.RegistryMirror
        ++ rangeBlock arbitraryFlag p.EngineOptions.ArbitraryFlags
        ++ "'\n" := rfl
  have h2 : (GenerateDockerOptions (GenerateDockerOptions p port).1 port).2.EngineOptions =
      engineConfigHeader port p.AuthOptions p.EngineOptions.StorageDriver
        ++ rangeBlock labelFlag
            ((p.EngineOptions.Labels ++ ["provider=" ++ p.Driver.driverName])
              ++ ["provider=" ++ p.Driver.driverName])
        ++ rangeBlock insecureRegistryFlag p.EngineOptions.InsecureRegistry
        ++ rangeBlock registryMirrorFlag p.EngineOptions.RegistryMirror
        ++ rangeBlock arbitraryFlag p.EngineOptions.ArbitraryFlags
        ++ "'\n" := rfl
  rw [rangeBlock_append, rangeBlock_singleton] at h2
  refine ⟨engineConfigHeader port p.AuthOptions p.EngineOptions.StorageDriver
      ++ rangeBlock labelFlag (p.EngineOptions.Labels ++ ["provider=" ++ p.Driver.driverName]),
    rangeBlock insecureRegistryFlag p.EngineOptions.InsecureRegistry
      ++ rangeBlock registryMirrorFlag p.EngineOptions.RegistryMirror
      ++ rangeBlock arbitraryFlag p.EngineOptions.ArbitraryFlags
      ++ "'\n", ?_, ?_, ?_⟩
  · rw [h1]; simp [String.append_assoc]
  · rw [h2]; simp [String.append_assoc]
  · intro h
    rw [h1, h2] at h
    have hl := congrArg String.length h
    simp only [String.length_append] at hl
    have hflag := labelFlag_length ("provider=" ++ p.Driver.driverName)
    omega

/-- The concrete driver used for concrete evaluations. -/
def cxDriver : Driver := { driverName := "virtualbox", machineName := "hypriot-1" }

/-- The concrete auth options used for concrete evaluations. -/
def cxAuthOptions : AuthOptions :=
  { CaCertRemotePath := "/etc/docker/ca.pem"
    ServerCertRemotePath := "/etc/docker/server.pem"
    ServerKeyRemotePath := "/etc/docker/server-key.pem" }

/-- A concrete provisioner state as it stands after `Provision` has stored
and defaulted the options: the constructor's paths and identifier, the
resolved auth paths and an `overlay` storage driver. -/
def cxProvisioner : HypriotProvisioner :=
  { NewHypriotProvisioner cxDriver with
    AuthOptions := cxAuthOptions
    EngineOptions := { StorageDriver := "overlay", Labels := [], InsecureRegistry := [],
                       RegistryMirror := [], ArbitraryFlags := [] } }

/-- C1 (counterexample): at a concrete provisioner and port, the second of
two successive `GenerateDockerOptions` calls on the same provisioner (state
threaded through) returns engine-options content that is not byte-identical
to the first call's content. -/
theorem generateDockerOptions_not_call_idempotent :
    (GenerateDockerOptions (GenerateDockerOptions cxProvisioner 2376).1 2376).2.EngineOptions ≠
      (GenerateDockerOptions cxProvisioner 2376).2.EngineOptions := by decide

/-- C9: the error-handling skeleton of `GenerateDockerOptions` propagates a
template-parse failure, but it discards a rendering (`Execute`) failure: at
a concrete input whose engine reports a render error after writing only a
truncated buffer, the function returns the truncated content with a nil
error instead of the non-nil error the claim requires. -/
theorem generateDockerOptions_render_error_swallowed :
    generateDockerOptionsWithEngine cxProvisioner
        { parseResult := none, executeOutput := "truncated", executeError := some "render failed" }
      = .ok { EngineOptions := "truncated", EngineOptionsPath := "/etc/default/docker" } ∧
    generateDockerOptionsWithEngine cxProvisioner
        { parseResult := some "parse failed", executeOutput := "", executeError := none }
      = .error "parse failed" :=
  ⟨rfl, rfl⟩

theorem provisionAuthPhase_final_eo (w : World) (p : HypriotProvisioner) (so : SwarmOptions) :
    (provisionAuthPhase w p so).final.EngineOptions = p.EngineOptions := by
  cases h : w.configureAuth <;>
    simp [provisionAuthPhase, seqStep, h, provisionSwarmStep]

theorem provisionTail_final_eo (w : World) (p : HypriotProvisioner) (so : SwarmOptions) :
    (provisionTail w p so).final.EngineOptions = p.EngineOptions := by
  cases h1 : w.waitForDocker <;> cases h2 : w.makeDockerOptionsDir <;>
    simp [provisionTail, seqStep, h1, h2, provisionAuthPhase_final_eo]

theorem provisionStartPhase_final_eo (w : World) (p : HypriotProvisioner) (so : SwarmOptions) :
    (provisionStartPhase w p so).final.EngineOptions = p.EngineOptions := by
  cases hr : dockerDaemonRunning w.exec <;>
    cases hs : Service w.exec "docker" ServiceAction.Start <;>
    simp [provisionStartPhase, seqStep, hr, hs, provisionTail_final_eo]

theorem installPackagesLoop_final_eo (w : World) (p : HypriotProvisioner)
    (k : Unit → ProvisionRun) (hk : (k ()).final.EngineOptions = p.EngineOptions) :
    ∀ pkgs, (installPackagesLoop w p pkgs k).final.EngineOptions = p.EngineOptions := by
  intro pkgs
  induction pkgs with
  | nil => exact hk
  | cons pkg pkgs ih =>
    cases h : (Package w.exec pkg PackageAction.Install).2 <;>
      simp [installPackagesLoop, seqStep, h, ih]

theorem provision_final_eo (w : World) (p0 : HypriotProvisioner) (so : SwarmOptions)
    (ao : AuthOptions) (eo : EngineOptions) :
    (Provision w p0 so ao eo).final.EngineOptions =
      (if eo.StorageDriver == "" then { eo with StorageDriver := "overlay" } else eo) := by
  cases h1 : w.setHostname with
  | some e => simp [Provision, seqStep, h1]
  | none =>
    cases h2 : setHostnameHypriot w.exec p0.Driver.machineName with
    | some e => simp [Provision, seqStep, h1, h2]
    | none =>
      cases h3 : (Package w.exec "apt-transport-https" PackageAction.Install).2 with
      | some e => simp [Provision, seqStep, h1, h2, h3]
      | none =>
        cases h4 : setHypriotAptRepo w.exec with
        | some e => simp [Provision, seqStep, h1, h2, h3, h4]
        | none =>
          simp only [Provision, seqStep, h1, h2, h3, h4]
          rw [installPackagesLoop_final_eo w _ _ (provisionStartPhase_final_eo w _ so)]

/-- C6: `Provision` stores the caller's engine options with an empty storage
driver defaulted to `overlay` and a non-empty one kept verbatim, and the
engine-options text rendered from the resulting provisioner state begins
with the fixed header that places exactly that storage-driver value after
`--storage-driver `. -/
theorem storage_driver_defaulted (w : World) (p0 : HypriotProvisioner) (so : SwarmOptions)
    (ao : AuthOptions) (eo : EngineOptions) (port : Int) :
    (Provision w p0 so ao eo).final.EngineOptions.StorageDriver =
      (if eo.StorageDriver = "" then "overlay" else eo.StorageDriver) ∧
    ∃ post,
      (GenerateDockerOptions (Provision w p0 so ao eo).final port).2.EngineOptions =
        engineConfigHeader port (Provision w p0 so ao eo).final.AuthOptions
          (if eo.StorageDriver = "" then "overlay" else eo.StorageDriver) ++ post := by
  have hsd : (Provision w p0 so ao eo).final.EngineOptions.StorageDriver =
      (if eo.StorageDriver = "" then "overlay" else eo.StorageDriver) := by
    rw [provision_final_eo]
    by_cases h : eo.StorageDriver = "" <;> simp [beq_iff_eq, h]
  refine ⟨hsd, ?_⟩
  refine ⟨rangeBlock labelFlag ((Provision w p0 so ao eo).final.EngineOptions.Labels
        ++ ["provider=" ++ (Provision w p0 so ao eo).final.Driver.driverName])
      ++ rangeBlock insecureRegistryFlag
          (Provision w p0 so ao eo).final.EngineOptions.InsecureRegistry
      ++ rangeBlock registryMirrorFlag
          (Provision w p0 so ao eo).final.EngineOptions.RegistryMirror
      ++ rangeBlock arbitraryFlag (Provision w p0 so ao eo).final.EngineOptions.ArbitraryFlags
      ++ "'\n", ?_⟩
  rw [← hsd]
  have hc : (GenerateDockerOptions (Provision w p0 so ao eo).final port).2.EngineOptions =
      engineConfigHeader port (Provision w p0 so ao eo).final.AuthOptions
          (Provision w p0 so ao eo).final.EngineOptions.StorageDriver
        ++ rangeBlock labelFlag ((Provision w p0 so ao eo).final.EngineOptions.Labels
            ++ ["provider=" ++ (Provision w p0 so ao eo).final.Driver.driverName])
        ++ rangeBlock insecureRegistryFlag
            (Provision w p0 so ao eo).final.EngineOptions.InsecureRegistry
        ++ rangeBlock registryMirrorFlag
            (Provision w p0 so ao eo).final.EngineOptions.RegistryMirror
        ++ rangeBlock arbitraryFlag (Provision w p0 so ao eo).final.EngineOptions.ArbitraryFlags
        ++ "'\n" := rfl
  rw [hc]
  simp [String.append_assoc]

theorem provisionAuthPhase_swarmCall (w : World) (p : HypriotProvisioner) (so : SwarmOptions) :
    (provisionAuthPhase w p so).swarmCall = none ∨
    (provisionAuthPhase w p so).swarmCall =
      some (if so.Image == "swarm:latest"
              then { so with Image := "hypriot/rpi-swarm:latest" } else so,
            w.remoteAuthOptions) := by
  cases h : w.configureAuth with
  | some e => left; simp [provisionAuthPhase, seqStep, h]
  | none => right; simp [provisionAuthPhase, seqStep, h, provisionSwarmStep]

theorem provisionTail_swarmCall (w : World) (p : HypriotProvisioner) (so : SwarmOptions) :
    (provisionTail w p so).swarmCall = none ∨
    (provisionTail w p so).swarmCall =
      some (if so.Image == "swarm:latest"
              then { so with Image := "hypriot/rpi-swarm:latest" } else so,
            w.remoteAuthOptions) := by
  cases h1 : w.waitForDocker with
  | some e => left; simp [provisionTail, seqStep, h1]
  | none =>
    cases h2 : w.makeDockerOptionsDir with
    | some e => left; simp [provisionTail, seqStep, h1, h2]
    | none =>
      have h := provisionAuthPhase_swarmCall w p so
      simpa [provisionTail, seqStep, h1, h2] using h

theorem provisionStartPhase_swarmCall (w : World) (p : HypriotProvisioner) (so : SwarmOptions) :
    (provisionStartPhase w p so).swarmCall = none ∨
    (provisionStartPhase w p so).swarmCall =
      some (if so.Image == "swarm:latest"
              then { so with Image := "hypriot/rpi-swarm:latest" } else so,
            w.remoteAuthOptions) := by
  cases hr : dockerDaemonRunning w.exec with
  | true =>
    have h := provisionTail_swarmCall w p so
    simpa [provisionStartPhase, hr] using h
  | false =>
    cases hs : Service w.exec "docker" ServiceAction.Start with
    | some e => left; simp [provisionStartPhase, seqStep, hr, hs]
    | none =>
      have h := provisionTail_swarmCall w p so
      simpa [provisionStartPhase, seqStep, hr, hs] using h

theorem installPackagesLoop_swarmCall (w : World) (p : HypriotProvisioner)
    (k : Unit → ProvisionRun) (q : Option (SwarmOptions × AuthOptions))
    (hk : (k ()).swarmCall = none ∨ (k ()).swarmCall = q) :
    ∀ pkgs, (installPackagesLoop w p pkgs k).swarmCall = none ∨
      (installPackagesLoop w p pkgs k).swarmCall = q := by
  intro pkgs
  induction pkgs with
  | nil => exact hk
  | cons pkg pkgs ih =>
    cases h : (Package w.exec pkg PackageAction.Install).2 with
    | some e => left; simp [installPackagesLoop, seqStep, h]
    | none => simpa [installPackagesLoop, seqStep, h] using ih

theorem provision_swarmCall (w : World) (p0 : HypriotProvisioner) (so : SwarmOptions)
    (ao : AuthOptions) (eo : EngineOptions) :
    (Provision w p0 so ao eo).swarmCall = none ∨
    (Provision w p0 so ao eo).swarmCall =
      some (if so.Image == "swarm:latest"
              then { so with Image := "hypriot/rpi-swarm:latest" } else so,
            w.remoteAuthOptions) := by
  cases h1 : w.setHostname with
  | some e => left; simp [Provision, seqStep, h1]
  | none =>
    cases h2 : setHostnameHypriot w.exec p0.Driver.machineName with
    | some e => left; simp [Provision, seqStep, h1, h2]
    | none =>
      cases h3 : (Package w.exec "apt-transport-https" PackageAction.Install).2 with
      | some e => left; simp [Provision, seqStep, h1, h2, h3]
      | none =>
        cases h4 : setHypriotAptRepo w.exec with
        | some e => left; simp [Provision, seqStep, h1, h2, h3, h4]
        | none =>
          simp only [Provision, seqStep, h1, h2, h3, h4]
          exact installPackagesLoop_swarmCall w _ _ _
            (provisionStartPhase_swarmCall w _ so) _

/-- C8: whenever a `Provision` run reaches the cluster-membership step, the
swarm-configuration collaborator receives swarm options whose image is
`hypriot/rpi-swarm:latest` exactly when the caller supplied the generic
default `swarm:latest` (any other caller-supplied image, and all other swarm
fields, are passed through unchanged), together with the rewritten
remote-path auth options returned by `setRemoteAuthOptions`. -/
theorem provision_swarm_substitution (w : World) (p0 : HypriotProvisioner) (so : SwarmOptions)
    (ao : AuthOptions) (eo : EngineOptions) (so' : SwarmOptions) (ao' : AuthOptions)
    (h : (Provision w p0 so ao eo).swarmCall = some (so', ao')) :
    so' = (if so.Image = "swarm:latest"
            then { so with Image := "hypriot/rpi-swarm:latest" } else so) ∧
    ao' = w.remoteAuthOptions := by
  rcases provision_swarmCall w p0 so ao eo with hc | hc
  · rw [h] at hc; exact absurd hc (by simp)
  · rw [h] at hc
    have hpair := Option.some.inj hc
    have hfst := congrArg Prod.fst hpair
    have hsnd := congrArg Prod.snd hpair
    simp only at hfst hsnd
    refine ⟨?_, hsnd⟩
    rw [hfst]
    by_cases him : so.Image = "swarm:latest" <;> simp [beq_iff_eq, him]

/-- The all-success world used for concrete witness runs: every remote
command and every collaborator succeeds, and `setRemoteAuthOptions` returns
the resolved `/etc/docker` paths. -/
def cwAllOk : World :=
  { exec := fun _ => .ok
    setHostname := none
    waitForDocker := none
    makeDockerOptionsDir := none
    remoteAuthOptions := cxAuthOptions
    configureAuth := none
    configureSwarm := none }

/-- Concrete swarm options carrying the generic default image. -/
def cxSwarmOptions : SwarmOptions := { Image := "swarm:latest", Discovery := "token://abc" }

/-- Concrete engine options with an unset storage driver. -/
def cxEngineOptions : EngineOptions :=
  { StorageDriver := "", Labels := [], InsecureRegistry := [],
    RegistryMirror := [], ArbitraryFlags := [] }

/-- C8 (witness): at the all-success world the run reaches the
cluster-membership step, so the substitution theorem applies: the generic
default image is replaced by the variant image, the other swarm fields are
unchanged, and the auth options handed over are the rewritten ones. -/
theorem provision_swarm_substitution_witness :
    ({ Image := "hypriot/rpi-swarm:latest", Discovery := "token://abc" } : SwarmOptions) =
      (if cxSwarmOptions.Image = "swarm:latest"
        then { cxSwarmOptions with Image := "hypriot/rpi-swarm:latest" } else cxSwarmOptions) ∧
    cxAuthOptions = cwAllOk.remoteAuthOptions :=
  provision_swarm_substitution cwAllOk (NewHypriotProvisioner cxDriver) cxSwarmOptions
    cxAuthOptions cxEngineOptions
    { Image := "hypriot/rpi-swarm:latest", Discovery := "token://abc" } cxAuthOptions
    (by decide)

end Hypriot
